import Mathlib

/-!
Shallow embedding of `src/akamai-config.py` (Akamai Security Configuration
Analyzer): the rule aggregator, the model dispatcher, the prompt builder and
the top-level analysis flow, together with proofs of the specified
properties.

External collaborators (the Streamlit UI, the Python stdlib `json` module
and the LLM provider clients) are modelled explicitly: parsed upload results
are passed as an `Except` value, the backend round trip is a parameter
`run`, and each call made to it is recorded in a trace so that "the
dispatcher is invoked exactly once / never" is expressible.
-/

/-! ## String utilities

Python's substring test (`"gpt" in model_name.lower()`) and
`chr(10).join(...)` modelled on explicit character lists. -/

/-- `startsWithChars hay pat` is true when `pat` is a prefix of `hay`
(models Python's substring match anchored at the start). -/
def startsWithChars : List Char → List Char → Bool
  | _, [] => true
  | [], _ :: _ => false
  | a :: as, b :: bs => a == b && startsWithChars as bs

/-- `containsChars hay pat` is true when `pat` occurs contiguously in `hay`
(models Python's `pat in hay`). -/
def containsChars : List Char → List Char → Bool
  | [], pat => startsWithChars [] pat
  | c :: t, pat => startsWithChars (c :: t) pat || containsChars t pat

/-- `strContains s pat`: Python's `pat in s` on strings. -/
def strContains (s pat : String) : Bool :=
  containsChars s.toList pat.toList

/-- Model of Python's `chr(10).join(xs)`. -/
def joinWithNewlines : List String → String
  | [] => ""
  | [x] => x
  | x :: y :: rest => x ++ "\n" ++ joinWithNewlines (y :: rest)

/-! ## JSON values and `json.dumps(config, indent=2)`

The configuration document is an arbitrary parsed JSON value
(`json.load(uploaded_file)`); numbers are modelled as integers.  `dumpsVal`
follows CPython's `json.dumps` with `indent=2` and default separators:
objects and arrays open with a newline, every element is indented two extra
spaces per level, items are separated by `",\n"`, keys are followed by
`": "`, and strings are escaped with `ensure_ascii` semantics. -/

mutual
inductive Json where
  | null : Json
  | bool : Bool → Json
  | num : Int → Json
  | str : String → Json
  | arr : JsonList → Json
  | obj : JsonObj → Json
  deriving DecidableEq
inductive JsonList where
  | nil : JsonList
  | cons : Json → JsonList → JsonList
  deriving DecidableEq
inductive JsonObj where
  | nil : JsonObj
  | cons : String → Json → JsonObj → JsonObj
  deriving DecidableEq
end

/-- Two spaces of indentation per nesting level (`indent=2`). -/
def indentStr (lvl : Nat) : String :=
  String.mk (List.replicate (2 * lvl) ' ')

/-- Lowercase hexadecimal digit, as produced by CPython's `'\\u%04x'`. -/
def hexDigitChar (n : Nat) : Char :=
  if n < 10 then Char.ofNat (48 + n) else Char.ofNat (87 + n)

/-- Four lowercase hex digits. -/
def hex4 (n : Nat) : String :=
  String.mk [hexDigitChar (n / 4096 % 16), hexDigitChar (n / 256 % 16),
    hexDigitChar (n / 16 % 16), hexDigitChar (n % 16)]

/-- Escape of a single character inside a JSON string literal
(CPython `py_encode_basestring_ascii`): printable ASCII passes through,
the named escapes are used for `"` `\` and control characters, everything
outside `0x20..0x7e` becomes `\uXXXX` (with surrogate pairs above
`0xFFFF`). -/
def escapeChar (c : Char) : String :=
  if c = '"' then "\\\""
  else if c = '\\' then "\\\\"
  else if c = '\n' then "\\n"
  else if c = '\r' then "\\r"
  else if c = '\t' then "\\t"
  else if c.toNat = 8 then "\\b"
  else if c.toNat = 12 then "\\f"
  else if c.toNat < 32 || c.toNat > 126 then
    if c.toNat < 65536 then "\\u" ++ hex4 c.toNat
    else
      "\\u" ++ hex4 (55296 + (c.toNat - 65536) / 1024)
        ++ "\\u" ++ hex4 (56320 + (c.toNat - 65536) % 1024)
  else String.singleton c

/-- A JSON string literal with quotes and escapes. -/
def quoteJson (s : String) : String :=
  "\"" ++ String.join (s.toList.map escapeChar) ++ "\""

mutual
/-- `json.dumps` at nesting level `lvl` with `indent=2`. -/
def dumpsVal : Json → Nat → String
  | .null, _ => "null"
  | .bool true, _ => "true"
  | .bool false, _ => "false"
  | .num n, _ => toString n
  | .str s, _ => quoteJson s
  | .arr .nil, _ => "[]"
  | .arr (.cons x xs), lvl =>
      "[\n" ++ indentStr (lvl + 1) ++ dumpsVal x (lvl + 1)
        ++ dumpsArrRest xs (lvl + 1) ++ "\n" ++ indentStr lvl ++ "]"
  | .obj .nil, _ => "\x7b\x7d"
  | .obj (.cons k v kvs), lvl =>
      "\x7b\n" ++ indentStr (lvl + 1) ++ quoteJson k ++ ": "
        ++ dumpsVal v (lvl + 1) ++ dumpsObjRest kvs (lvl + 1)
        ++ "\n" ++ indentStr lvl ++ "\x7d"
/-- Remaining array items, each preceded by `",\n"` and indentation. -/
def dumpsArrRest : JsonList → Nat → String
  | .nil, _ => ""
  | .cons x xs, lvl =>
      ",\n" ++ indentStr lvl ++ dumpsVal x lvl ++ dumpsArrRest xs lvl
/-- Remaining object items, each preceded by `",\n"` and indentation. -/
def dumpsObjRest : JsonObj → Nat → String
  | .nil, _ => ""
  | .cons k v kvs, lvl =>
      ",\n" ++ indentStr lvl ++ quoteJson k ++ ": " ++ dumpsVal v lvl
        ++ dumpsObjRest kvs lvl
end

/-- `json.dumps(config, indent=2)` as called in `analyze_config`
(src/akamai-config.py line 112). -/
def dumps (j : Json) : String := dumpsVal j 0

/-- Sanity check of the serializer model: `json.dumps({"a": 1}, indent=2)`
is the two-line object literal. -/
theorem dumps_singleton_obj :
    dumps (.obj (.cons "a" (.num 1) .nil)) = "\x7b\n  \"a\": 1\n\x7d" := by
  decide

/-! ## Built-in rules and the dispatcher -/

/-- `DEFAULT_RULES` (src/akamai-config.py lines 8-15). -/
def DEFAULT_RULES : List String := [
  "WAF_ENABLED: Ensure WAF is enabled for all endpoints",
  "RATE_LIMIT: Verify rate limiting is configured for API endpoints",
  "GEO_BLOCKING: Check geo-blocking configuration for sensitive regions",
  "TLS_VERSION: Validate TLS 1.2+ enforcement",
  "BOT_MANAGEMENT: Review bot management rules",
  "DDOS_PROTECTION: Confirm DDoS protection settings"
]

/-- The provider model constructed by the dispatcher: `OpenAIChat(api_key=...)`
or `Gemini(api_key=...)` (src/akamai-config.py lines 20, 22). -/
inductive ProviderModel where
  | OpenAIChat : String → ProviderModel
  | Gemini : String → ProviderModel
  deriving DecidableEq

/-- The `Agent(...)` value built by `create_security_agent`
(src/akamai-config.py lines 26-38). -/
structure Agent where
  model : ProviderModel
  description : String
  instructions : List String
  markdown : Bool
  reasoning : Bool
  deriving DecidableEq

/-- The fixed keyword arguments of the `Agent(...)` constructor call
(src/akamai-config.py lines 26-38), shared by both branches. -/
def mkSecurityAgent (m : ProviderModel) : Agent :=
  ⟨m,
   "You are an expert security analyst specializing in Akamai configurations.",
   ["Analyze Akamai security configurations against provided security rules",
    "Provide detailed security assessments with clear recommendations",
    "Score configurations based on compliance with security rules",
    "Identify critical security gaps and vulnerabilities",
    "Suggest specific improvements for each security finding"],
   true, true⟩

/-- Python's `str.lower()` (characterwise lowercasing; the identifiers
matched against are pure ASCII). -/
def pyLower (s : String) : String :=
  String.mk (s.toList.map Char.toLower)

/-- `create_security_agent(model_name, api_key)`
(src/akamai-config.py lines 17-24): `if "gpt" in model_name.lower()` build
`OpenAIChat`, `elif "gemini" in model_name.lower()` build `Gemini`, else
`raise ValueError(f"Unsupported model: ...")` (modelled as `Except.error`
carrying `str(e)`). -/
def create_security_agent (model_name api_key : String) : Except String Agent :=
  if strContains (pyLower model_name) "gpt" then
    .ok (mkSecurityAgent (.OpenAIChat api_key))
  else if strContains (pyLower model_name) "gemini" then
    .ok (mkSecurityAgent (.Gemini api_key))
  else
    .error ("Unsupported model: " ++ model_name)

/-! ## Custom-rule operations (the Rule Aggregator) -/

/-- The Add handler (src/akamai-config.py lines 85-87):
`if st.button("Add") and new_rule: st.session_state.custom_rules.append(new_rule)`.
With the button pressed, the text is appended exactly when it is truthy,
i.e. a non-empty string. -/
def add_rule (rules : List String) (text : String) : List String :=
  if text = "" then rules else rules ++ [text]

/-- The Remove handler (src/akamai-config.py lines 92-99): the loop
`for i, rule in enumerate(st.session_state.custom_rules)` renders a Remove
button only for indices inside the current bounds, and a pressed button at
index `i` runs `st.session_state.custom_rules.pop(i)`; an index outside the
bounds has no button and triggers nothing. -/
def remove_rule (rules : List String) (i : Nat) : List String :=
  if i < rules.length then rules.eraseIdx i else rules

/-- One user action on the custom-rule list. -/
inductive RuleOp where
  | add : String → RuleOp
  | remove : Nat → RuleOp

/-- Effect of one action on the session's custom-rule list. -/
def apply_op (rules : List String) : RuleOp → List String
  | .add text => add_rule rules text
  | .remove i => remove_rule rules i

/-- The custom-rule list after a sequence of actions, starting from the
empty list set up by `init_session_state` (src/akamai-config.py line 43). -/
def apply_ops (ops : List RuleOp) : List String :=
  ops.foldl apply_op []

/-- `rules = DEFAULT_RULES + custom_rules` (src/akamai-config.py line 103):
the effective rule list sent to the model. -/
def effective_rules (custom_rules : List String) : List String :=
  DEFAULT_RULES ++ custom_rules

/-! ## Prompt construction and the analysis flow -/

/-- `chr(10).join(f'- {rule}' for rule in rules)`
(src/akamai-config.py line 108). -/
def joinRuleLines (rules : List String) : String :=
  joinWithNewlines (rules.map (fun rule => "- " ++ rule))

/-- The f-string prompt of `analyze_config` (src/akamai-config.py
lines 105-120), expanded literally: the fixed header (including the
four-space line inside the triple-quoted string), the rule lines, the
config serialized by `json.dumps(config, indent=2)` inside a fenced
```json block, and the fixed instruction block. -/
def analysis_prompt (rules : List String) (config : Json) : String :=
  "Analyze this Akamai security configuration against the following rules:\n    \nRules to check:\n"
    ++ joinRuleLines rules
    ++ "\n\nConfiguration:\n```json\n"
    ++ dumps config
    ++ "\n```\n\nProvide a detailed security analysis with:\n1. Overall security score\n2. Rule-by-rule assessment\n3. Critical findings\n4. Recommendations\n"

/-- `analyze_config(agent, config, custom_rules)`
(src/akamai-config.py lines 101-121): builds
`rules = DEFAULT_RULES + custom_rules`, the prompt, and returns
`agent.run(prompt).content`.  The external round trip is the parameter
`run` (which may fail: any exception is an `Except.error`); the second
component records the calls made to the backend, each with the agent it
was made on and the prompt passed. -/
def analyze_config (run : Agent → String → Except String String)
    (agent : Agent) (config : Json) (custom_rules : List String) :
    Except String String × List (Agent × String) :=
  let rules := effective_rules custom_rules
  let prompt := analysis_prompt rules config
  (run agent prompt, [(agent, prompt)])

/-- The analyze-button branch of `main` (src/akamai-config.py
lines 148-161): `try:` parse the upload (`json.load`, outcome supplied as
`parsed`), build the agent, run `analyze_config` and display the analysis
with `st.markdown`; `except Exception as e:` display
`st.error(f"Analysis failed: {str(e)}")`.  The result is the displayed
outcome; the trace lists every backend call made. -/
def main_flow (parsed : Except String Json) (model api_key : String)
    (run : Agent → String → Except String String)
    (custom_rules : List String) :
    Except String String × List (Agent × String) :=
  match parsed with
  | .error e => (.error ("Analysis failed: " ++ e), [])
  | .ok config =>
    match create_security_agent model api_key with
    | .error e => (.error ("Analysis failed: " ++ e), [])
    | .ok agent =>
      let r := analyze_config run agent config custom_rules
      (match r.1 with
       | .error e => .error ("Analysis failed: " ++ e)
       | .ok text => .ok text,
       r.2)

/-! ## Substring lemmas -/

theorem startsWithChars_append (p b : List Char) :
    startsWithChars (p ++ b) p = true := by
  induction p with
  | nil => cases b <;> rfl
  | cons c t ih => simp [startsWithChars, ih]

theorem startsWithChars_nil (hay : List Char) :
    startsWithChars hay [] = true := by
  cases hay <;> rfl

theorem startsWithChars_extend (s b pat : List Char)
    (h : startsWithChars s pat = true) :
    startsWithChars (s ++ b) pat = true := by
  induction pat generalizing s with
  | nil => exact startsWithChars_nil _
  | cons c t ih =>
    cases s with
    | nil => simp [startsWithChars] at h
    | cons a as =>
      simp [startsWithChars] at h ⊢
      exact ⟨h.1, ih as h.2⟩

theorem containsChars_nil (hay : List Char) : containsChars hay [] = true := by
  cases hay <;> simp [containsChars, startsWithChars]

theorem containsChars_append_left (p b : List Char) :
    containsChars (p ++ b) p = true := by
  cases p with
  | nil => exact containsChars_nil b
  | cons c t =>
    have h1 := startsWithChars_append (c :: t) b
    rw [List.cons_append] at h1
    show (startsWithChars (c :: (t ++ b)) (c :: t)
      || containsChars (t ++ b) (c :: t)) = true
    rw [h1]
    rfl

theorem containsChars_cons (c : Char) (t pat : List Char)
    (h : containsChars t pat = true) : containsChars (c :: t) pat = true := by
  simp [containsChars, h]

theorem containsChars_append_right (a t pat : List Char)
    (h : containsChars t pat = true) : containsChars (a ++ t) pat = true := by
  induction a with
  | nil => simpa using h
  | cons c cs ih => exact containsChars_cons c _ pat ih

theorem containsChars_extend (s b pat : List Char)
    (h : containsChars s pat = true) : containsChars (s ++ b) pat = true := by
  induction s with
  | nil =>
    cases pat with
    | nil => exact containsChars_nil b
    | cons c t => simp [containsChars, startsWithChars] at h
  | cons c cs ih =>
    simp only [containsChars, Bool.or_eq_true] at h
    rcases h with h | h
    · have := startsWithChars_extend (c :: cs) b pat h
      cases pat with
      | nil => exact containsChars_nil _
      | cons p ps => simp [containsChars, List.cons_append] at this ⊢; left; exact this
    · exact containsChars_cons c _ pat (ih h)

theorem toList_append (a b : String) :
    (a ++ b).toList = a.toList ++ b.toList := by
  simp [String.toList, String.data_append]

theorem strContains_self (s : String) : strContains s s = true := by
  have := containsChars_append_left s.toList []
  simpa [strContains] using this

theorem strContains_of_right (a s pat : String)
    (h : strContains s pat = true) : strContains (a ++ s) pat = true := by
  simp only [strContains, toList_append]
  exact containsChars_append_right a.toList s.toList pat.toList h

theorem strContains_of_left (s b pat : String)
    (h : strContains s pat = true) : strContains (s ++ b) pat = true := by
  simp only [strContains, toList_append]
  exact containsChars_extend s.toList b.toList pat.toList h

theorem joinWithNewlines_contains (x : String) (xs : List String)
    (h : x ∈ xs) : strContains (joinWithNewlines xs) x = true := by
  induction xs with
  | nil => cases h
  | cons hd tl ih =>
    cases tl with
    | nil =>
      rcases List.mem_singleton.mp h with rfl
      exact strContains_self x
    | cons y rest =>
      rcases List.mem_cons.mp h with rfl | hmem
      · show strContains (x ++ "\n" ++ joinWithNewlines (y :: rest)) x = true
        exact strContains_of_left _ _ _
          (strContains_of_left x "\n" x (strContains_self x))
      · show strContains (hd ++ "\n" ++ joinWithNewlines (y :: rest)) x = true
        have hj := ih hmem
        have h1 := strContains_of_right "\n" _ x hj
        have h2 := strContains_of_right hd _ x h1
        calc strContains (hd ++ "\n" ++ joinWithNewlines (y :: rest)) x
            = strContains (hd ++ ("\n" ++ joinWithNewlines (y :: rest))) x := by
              simp [strContains, toList_append]
          _ = true := h2

theorem analysis_prompt_contains_rule (rules : List String) (config : Json)
    (r : String) (h : r ∈ rules) :
    strContains (analysis_prompt rules config) ("- " ++ r) = true := by
  have hjoin : strContains (joinRuleLines rules) ("- " ++ r) = true :=
    joinWithNewlines_contains ("- " ++ r) (rules.map (fun rule => "- " ++ rule))
      (List.mem_map_of_mem _ h)
  unfold analysis_prompt
  exact strContains_of_left _ _ _ (strContains_of_left _ _ _
    (strContains_of_left _ _ _ (strContains_of_right _ _ _ hjoin)))

theorem analysis_prompt_contains_config (rules : List String) (config : Json) :
    strContains (analysis_prompt rules config) (dumps config) = true := by
  unfold analysis_prompt
  exact strContains_of_left _ _ _
    (strContains_of_right _ _ _ (strContains_self (dumps config)))

/-! ## Claims -/

/-- C2: for every model identifier and API key, an identifier containing
"gpt" (case-insensitively) resolves to the OpenAI backend family; failing
that, one containing "gemini" resolves to the Gemini backend family;
otherwise the dispatcher fails with the unsupported-model error, and in
that case no backend agent value is produced (`Except.error`), so no
network call can be attempted. -/
theorem c2_model_dispatch (model_name api_key : String) :
    (strContains (pyLower model_name) "gpt" = true →
      create_security_agent model_name api_key
        = .ok (mkSecurityAgent (.OpenAIChat api_key)))
    ∧ (strContains (pyLower model_name) "gpt" = false →
       strContains (pyLower model_name) "gemini" = true →
      create_security_agent model_name api_key
        = .ok (mkSecurityAgent (.Gemini api_key)))
    ∧ (strContains (pyLower model_name) "gpt" = false →
       strContains (pyLower model_name) "gemini" = false →
      create_security_agent model_name api_key
        = .error ("Unsupported model: " ++ model_name)) := by
  refine ⟨fun hg => ?_, fun hg hm => ?_, fun hg hm => ?_⟩ <;>
    simp [create_security_agent, hg]
  · simp [hm]
  · simp [hm]

/-- Witness for C2 at the three concrete identifiers "GPT-4", "Gemini-Pro"
and "claude". -/
theorem c2_model_dispatch_witness :
    create_security_agent "GPT-4" "k" = .ok (mkSecurityAgent (.OpenAIChat "k"))
    ∧ create_security_agent "Gemini-Pro" "k"
        = .ok (mkSecurityAgent (.Gemini "k"))
    ∧ create_security_agent "claude" "k"
        = .error ("Unsupported model: " ++ "claude") :=
  ⟨(c2_model_dispatch "GPT-4" "k").1 (by decide),
   (c2_model_dispatch "Gemini-Pro" "k").2.1 (by decide) (by decide),
   (c2_model_dispatch "claude" "k").2.2 (by decide) (by decide)⟩

/-- C3: removing a rule at an index outside the current bounds of the
custom-rule list leaves the list unchanged; no exception reaches the
caller (the Remove loop renders no button for such an index). -/
theorem c3_remove_rule_out_of_bounds (rules : List String) (i : Nat)
    (h : rules.length ≤ i) : remove_rule rules i = rules := by
  unfold remove_rule
  rw [if_neg (by omega)]

/-- Witness for C3: removing index 3 from a one-element list. -/
theorem c3_remove_rule_out_of_bounds_witness :
    (["only rule"] : List String).length ≤ 3
    ∧ remove_rule ["only rule"] 3 = ["only rule"] :=
  ⟨by decide, c3_remove_rule_out_of_bounds ["only rule"] 3 (by decide)⟩

/-- C5: when the uploaded bytes are not valid JSON (the parse step yields
an error), the flow reports the malformed-input failure and the backend is
never invoked: the call trace is empty, so no prompt is built or sent and
no agent is constructed. -/
theorem c5_malformed_input_no_dispatch (e : String) (model api_key : String)
    (run : Agent → String → Except String String)
    (custom_rules : List String) :
    main_flow (.error e) model api_key run custom_rules
      = (.error ("Analysis failed: " ++ e), []) := rfl

/-- C8: the Add handler appends the given text to the end of the custom
list exactly when the text is non-empty; the empty string is never
appended, and any non-empty string is accepted unchanged with no other
validation. -/
theorem c8_add_rule_appends_iff_nonempty (rules : List String)
    (text : String) :
    (text ≠ "" → add_rule rules text = rules ++ [text])
    ∧ add_rule rules "" = rules := by
  constructor
  · intro h
    unfold add_rule
    rw [if_neg h]
  · rfl

/-- Witness for C8: adding "NEW_RULE: anything at all" to a one-element
list appends it. -/
theorem c8_add_rule_appends_iff_nonempty_witness :
    ("NEW_RULE: anything at all" : String) ≠ ""
    ∧ add_rule ["a"] "NEW_RULE: anything at all"
        = ["a"] ++ ["NEW_RULE: anything at all"] :=
  ⟨by decide,
   (c8_add_rule_appends_iff_nonempty ["a"] "NEW_RULE: anything at all").1
     (by decide)⟩

/-- C9: a model identifier containing both "gpt" and "gemini"
(case-insensitively) resolves to the OpenAI backend family — the "gpt"
test comes first in the dispatcher and takes precedence. -/
theorem c9_gpt_precedence (model_name api_key : String)
    (hg : strContains (pyLower model_name) "gpt" = true)
    (_hm : strContains (pyLower model_name) "gemini" = true) :
    create_security_agent model_name api_key
      = .ok (mkSecurityAgent (.OpenAIChat api_key)) := by
  simp [create_security_agent, hg]

/-- Witness for C9 at "gpt-gemini", which contains both substrings. -/
theorem c9_gpt_precedence_witness :
    strContains (pyLower "gpt-gemini") "gpt" = true
    ∧ strContains (pyLower "gpt-gemini") "gemini" = true
    ∧ create_security_agent "gpt-gemini" "k"
        = .ok (mkSecurityAgent (.OpenAIChat "k")) :=
  ⟨by decide, by decide,
   c9_gpt_precedence "gpt-gemini" "k" (by decide) (by decide)⟩

theorem str_append_assoc (a b c : String) : a ++ b ++ c = a ++ (b ++ c) := by
  apply String.ext
  simp [String.data_append, List.append_assoc]

/-- C1: after any sequence of add/remove operations on the custom list,
the rule list used for the prompt is exactly the six fixed built-in
strings, unchanged in content and order, followed by the custom rules in
insertion order with no de-duplication; the prompt embeds exactly that
list's rendering, and the call sent to the model carries that prompt. -/
theorem c1_rule_list_invariant (ops : List RuleOp) (config : Json) :
    effective_rules (apply_ops ops)
        = ["WAF_ENABLED: Ensure WAF is enabled for all endpoints",
           "RATE_LIMIT: Verify rate limiting is configured for API endpoints",
           "GEO_BLOCKING: Check geo-blocking configuration for sensitive regions",
           "TLS_VERSION: Validate TLS 1.2+ enforcement",
           "BOT_MANAGEMENT: Review bot management rules",
           "DDOS_PROTECTION: Confirm DDoS protection settings"]
          ++ apply_ops ops
    ∧ (∃ a b, analysis_prompt (effective_rules (apply_ops ops)) config
        = a ++ joinRuleLines (effective_rules (apply_ops ops)) ++ b)
    ∧ (∀ (run : Agent → String → Except String String) (agent : Agent),
        (analyze_config run agent config (apply_ops ops)).2
          = [(agent,
              analysis_prompt (effective_rules (apply_ops ops)) config)]) := by
  refine ⟨rfl, ?_, fun run agent => rfl⟩
  refine ⟨"Analyze this Akamai security configuration against the following rules:\n    \nRules to check:\n",
    "\n\nConfiguration:\n```json\n" ++ dumps config
      ++ "\n```\n\nProvide a detailed security analysis with:\n1. Overall security score\n2. Rule-by-rule assessment\n3. Critical findings\n4. Recommendations\n",
    ?_⟩
  unfold analysis_prompt
  simp only [str_append_assoc]

/-- C4: for the fixed rule set ["R1", "R2"] and the config with the single
entry "a" ↦ 1, the constructed prompt contains the literal dash-prefixed
lines "- R1" and "- R2", and the config serialization (which contains the
exact text `"a": 1`) appears inside the fenced json code block of the
prompt. -/
theorem c4_prompt_templating :
    strContains
        (analysis_prompt ["R1", "R2"] (.obj (.cons "a" (.num 1) .nil)))
        "- R1" = true
    ∧ strContains
        (analysis_prompt ["R1", "R2"] (.obj (.cons "a" (.num 1) .nil)))
        "- R2" = true
    ∧ strContains (dumps (.obj (.cons "a" (.num 1) .nil))) "\"a\": 1" = true
    ∧ strContains
        (analysis_prompt ["R1", "R2"] (.obj (.cons "a" (.num 1) .nil)))
        ("```json\n" ++ dumps (.obj (.cons "a" (.num 1) .nil)) ++ "\n```")
        = true := by
  refine ⟨?_, ?_, by decide, ?_⟩
  · exact analysis_prompt_contains_rule _ _ "R1" (by decide)
  · exact analysis_prompt_contains_rule _ _ "R2" (by decide)
  · unfold analysis_prompt
    rw [show ("\n\nConfiguration:\n```json\n" : String)
          = "\n\nConfiguration:\n" ++ "```json\n" from by decide]
    rw [show (("\n```\n\nProvide a detailed security analysis with:\n1. Overall security score\n2. Rule-by-rule assessment\n3. Critical findings\n4. Recommendations\n") : String)
          = "\n```" ++ "\n\nProvide a detailed security analysis with:\n1. Overall security score\n2. Rule-by-rule assessment\n3. Critical findings\n4. Recommendations\n" from by decide]
    have h1 : strContains
        (("```json\n" ++ dumps (.obj (.cons "a" (.num 1) .nil)) ++ "\n```")
          ++ "\n\nProvide a detailed security analysis with:\n1. Overall security score\n2. Rule-by-rule assessment\n3. Critical findings\n4. Recommendations\n")
        ("```json\n" ++ dumps (.obj (.cons "a" (.num 1) .nil)) ++ "\n```")
        = true :=
      strContains_of_left _ _ _ (strContains_self _)
    have h2 := strContains_of_right
      ("Analyze this Akamai security configuration against the following rules:\n    \nRules to check:\n"
        ++ joinRuleLines ["R1", "R2"] ++ "\n\nConfiguration:\n") _ _ h1
    simp only [str_append_assoc] at h2 ⊢
    exact h2

/-- C6: for a successful run (parsed config, a model identifier the
dispatcher resolves, a backend answer), the backend is called exactly once
— the call trace is the singleton carrying the resolved agent and the
prompt — the prompt contains every effective rule rendered as a dash line
and the serialized config, and the displayed output equals the backend's
returned text with no modification. -/
theorem c6_single_dispatch (config : Json) (custom_rules : List String)
    (model api_key text : String) (agent : Agent)
    (hag : create_security_agent model api_key = .ok agent)
    (run : Agent → String → Except String String)
    (hrun : run agent (analysis_prompt (effective_rules custom_rules) config)
      = .ok text) :
    main_flow (.ok config) model api_key run custom_rules
      = (.ok text,
         [(agent, analysis_prompt (effective_rules custom_rules) config)])
    ∧ (∀ r ∈ effective_rules custom_rules,
        strContains (analysis_prompt (effective_rules custom_rules) config)
          ("- " ++ r) = true)
    ∧ strContains (analysis_prompt (effective_rules custom_rules) config)
        (dumps config) = true := by
  refine ⟨?_, fun r hr => analysis_prompt_contains_rule _ _ r hr,
    analysis_prompt_contains_config _ _⟩
  simp [main_flow, hag, analyze_config, hrun]

/-- Witness for C6 at the spec's scenario: custom rules ["CUSTOM1"],
config with the single entry "waf" ↦ true, model "gpt-4", a backend that
answers "REPORT". -/
theorem c6_single_dispatch_witness :
    main_flow (.ok (.obj (.cons "waf" (.bool true) .nil))) "gpt-4" "k"
        (fun _ _ => .ok "REPORT") ["CUSTOM1"]
      = (.ok "REPORT",
         [(mkSecurityAgent (.OpenAIChat "k"),
           analysis_prompt (effective_rules ["CUSTOM1"])
             (.obj (.cons "waf" (.bool true) .nil)))]) :=
  (c6_single_dispatch (.obj (.cons "waf" (.bool true) .nil)) ["CUSTOM1"]
    "gpt-4" "k" "REPORT" (mkSecurityAgent (.OpenAIChat "k")) (by rfl)
    (fun _ _ => .ok "REPORT") rfl).1

/-- C7: every run of the analysis flow ends in exactly one of two
outcomes — a backend analysis text, or a single failure message of the
form "Analysis failed: ..." produced by the top-level handler for every
error (unsupported model, malformed input, backend failure) — and never
both. -/
theorem c7_single_outcome (parsed : Except String Json)
    (model api_key : String) (run : Agent → String → Except String String)
    (custom_rules : List String) :
    ((∃ m, (main_flow parsed model api_key run custom_rules).1
        = .error ("Analysis failed: " ++ m))
      ∨ (∃ t, (main_flow parsed model api_key run custom_rules).1 = .ok t))
    ∧ ¬((∃ m, (main_flow parsed model api_key run custom_rules).1
          = .error m)
        ∧ (∃ t, (main_flow parsed model api_key run custom_rules).1
          = .ok t)) := by
  constructor
  · cases parsed with
    | error e => exact .inl ⟨e, rfl⟩
    | ok config =>
      cases hag : create_security_agent model api_key with
      | error e => exact .inl ⟨e, by simp [main_flow, hag]⟩
      | ok agent =>
        cases hr : run agent
            (analysis_prompt (effective_rules custom_rules) config) with
        | error e =>
          exact .inl ⟨e, by simp [main_flow, hag, analyze_config, hr]⟩
        | ok t =>
          exact .inr ⟨t, by simp [main_flow, hag, analyze_config, hr]⟩
  · rintro ⟨⟨m, hm⟩, ⟨t, ht⟩⟩
    rw [hm] at ht
    exact Except.noConfusion ht

/-- C10: the prompt text sent to the backend does not depend on the API
key — two runs differing only in the credential produce identical prompt
traces; the credential flows only into the constructed agent. -/
theorem c10_prompt_key_independence (parsed : Except String Json)
    (model k1 k2 : String) (run : Agent → String → Except String String)
    (custom_rules : List String) :
    ((main_flow parsed model k1 run custom_rules).2.map Prod.snd)
      = ((main_flow parsed model k2 run custom_rules).2.map Prod.snd) := by
  cases parsed with
  | error e => rfl
  | ok config =>
    by_cases hg : strContains (pyLower model) "gpt" = true
    · simp [main_flow, create_security_agent, hg, analyze_config]
    · by_cases hm : strContains (pyLower model) "gemini" = true
      · simp [main_flow, create_security_agent, hg, hm, analyze_config]
      · simp [main_flow, create_security_agent, hg, hm]
